import Mathlib

/-!
Shallow embedding of the django-turbo-response core
(`turbo_response/mixins.py` and `turbo_response/response.py`).

Python values occurring in template contexts and keyword-argument
dictionaries are modelled by `PyVal`; a Python `dict` literal such as
`\x7b**context, "k": v\x7d` is modelled as the association list
`context ++ [("k", v)]` with last-write-wins lookup (`dictGet`),
matching Python's dict-literal overwrite semantics.

The template engine, the request object and the wrapped `form_invalid`
operation are external collaborators and are modelled as abstract
parameters (a function, a record, a function respectively).
-/

/-- A Python runtime value as it can appear in a template context or in
forwarded keyword arguments: a string, a bool, an int, `None`, or some
other opaque object (indexed by a natural number). -/
inductive PyVal where
  | str (s : String)
  | bool (b : Bool)
  | int (n : Int)
  | pynone
  | obj (n : Nat)
  deriving DecidableEq, Repr

/-- A Python dict with string keys, as an insertion-ordered association
list; duplicate keys may occur, the last write wins (see `dictGet`). -/
abbrev PyDict := List (String × PyVal)

/-- Lookup in a `PyDict`: the value of the LAST entry with the given key
(Python dict-literal semantics: a later duplicate key overwrites). -/
def dictGet : PyDict → String → Option PyVal
  | [], _ => none
  | e :: rest, k =>
    match dictGet rest k with
    | some v => some v
    | none => if e.1 = k then some e.2 else none

/-- Modelled from the spec: `turbo_response.renderers.Action` is not under
`src/`; per the spec the action is drawn from the closed enumerated set
`append, prepend, replace, update, remove, before, after`. -/
inductive Renderers.Action where
  | append
  | prepend
  | replace
  | update
  | remove
  | before
  | after
  deriving DecidableEq, Repr

/-- Modelled from the spec: each `Renderers.Action` has a stable string
representation (the Python enum member's `.value`), used both as the
wrapper-markup attribute and as a template-context value. -/
def Renderers.Action.value : Renderers.Action → String
  | .append => "append"
  | .prepend => "prepend"
  | .replace => "replace"
  | .update => "update"
  | .remove => "remove"
  | .before => "before"
  | .after => "after"

/-- Modelled from the spec: `turbo_response.utils.render_turbo_stream` is
not under `src/`; per the spec's wire contract it produces
`<turbo-stream action="{action}" target="{target}">{content}</turbo-stream>`
with the content inserted verbatim. -/
def render_turbo_stream (action : Renderers.Action) (target : String) (content : String) : String :=
  "<turbo-stream action=\"" ++ action.value ++ "\" target=\"" ++ target ++ "\">"
    ++ content ++ "</turbo-stream>"

/-- Modelled from the spec: `turbo_response.utils.render_turbo_frame` is
not under `src/`; per the spec's wire contract it produces
`<turbo-frame id="{dom_id}">{content}</turbo-frame>` with the content
inserted verbatim. -/
def render_turbo_frame (dom_id : String) (content : String) : String :=
  "<turbo-frame id=\"" ++ dom_id ++ "\">" ++ content ++ "</turbo-frame>"

/-- An external request object (opaque collaborator). -/
structure Request where
  path : String
  deriving Repr

/-- The external template-rendering collaborator: given candidate
template names, a context and a request, it produces the rendered body.
Django's `TemplateResponse` stores this as the `using` engine selector
together with the engine itself; the shallow embedding abstracts the
whole resolution-and-render pipeline as one function. -/
abbrev TemplateEngine := List String → PyDict → Request → String

/-- The content-type string passed by `response.TurboStreamResponseMixin.__init__`
to the underlying response constructor (response.py line 12). -/
def turboStreamContentType : String := "text/html; turbo-stream; charset=utf-8"

/-- Embeds `response.TurboStreamResponse` (an eager HttpResponse):
`body` is the already-wrapped markup, `content_type` is the value this
layer passes to the framework response constructor (`none` = not set,
framework default), `kwargs` are the forwarded extra options. -/
structure TurboStreamResponse where
  body : String
  content_type : Option String
  kwargs : PyDict

/-- Embeds `TurboStreamResponse.__init__(content=b"", *, action, target, **kwargs)`
(response.py lines 20-24): wraps the content once via `render_turbo_stream`
and, through `response.TurboStreamResponseMixin`, sets the stream content
type. In the source `content` defaults to the empty byte string. -/
def TurboStreamResponse.init (content : String) (action : Renderers.Action) (target : String)
    (kwargs : PyDict) : TurboStreamResponse :=
  { body := render_turbo_stream action target content
    content_type := some turboStreamContentType
    kwargs := kwargs }

/-- Django's `HttpResponse.content` accessor: returns the stored body
bytes; it never re-applies any wrapping. -/
def TurboStreamResponse.content (r : TurboStreamResponse) : String := r.body

/-- Embeds `response.TurboStreamStreamingResponse` (response.py lines 16-17):
a StreamingHttpResponse whose only addition over the framework base is the
content type set by `response.TurboStreamResponseMixin`. -/
structure TurboStreamStreamingResponse where
  streaming_content : List String
  content_type : Option String

/-- Embeds `TurboStreamStreamingResponse.__init__`: the class body is
empty, so construction just forwards the iterator and lets
`response.TurboStreamResponseMixin.__init__` set the content type. -/
def TurboStreamStreamingResponse.init (streaming_content : List String) :
    TurboStreamStreamingResponse :=
  { streaming_content := streaming_content
    content_type := some turboStreamContentType }

/-- Embeds `response.TurboFrameResponse` (an eager HttpResponse,
response.py lines 54-58): no content type is set by this layer. -/
structure TurboFrameResponse where
  body : String
  content_type : Option String
  kwargs : PyDict

/-- Embeds `TurboFrameResponse.__init__(content=b"", *, dom_id, **kwargs)`
(response.py lines 55-58): wraps the content once via `render_turbo_frame`;
the content type is left to the framework default. In the source `content`
defaults to the empty byte string. -/
def TurboFrameResponse.init (content : String) (dom_id : String)
    (kwargs : PyDict) : TurboFrameResponse :=
  { body := render_turbo_frame dom_id content
    content_type := none
    kwargs := kwargs }

/-- Django's `HttpResponse.content` accessor for the frame response:
returns the stored body bytes; it never re-applies any wrapping. -/
def TurboFrameResponse.content (r : TurboFrameResponse) : String := r.body

/-- The base `TemplateResponse.rendered_content`: ask the external
template collaborator to render the stored template with the stored
context and request. -/
def TemplateResponse.rendered_content (engine : TemplateEngine) (template : List String)
    (context : PyDict) (request : Request) : String :=
  engine template context request

/-- Embeds `response.TurboStreamTemplateResponse` (response.py lines 27-51):
a template-deferred stream response.  `context` is the overlaid context
passed to the base `TemplateResponse`; `tsr_action` / `tsr_target` embed the
`self._action` / `self._target` attributes stored for later wrapping. -/
structure TurboStreamTemplateResponse where
  request : Request
  template : List String
  context : PyDict
  content_type : Option String
  engine : TemplateEngine
  kwargs : PyDict
  tsr_action : Renderers.Action
  tsr_target : String

/-- Embeds `TurboStreamTemplateResponse.__init__(request, template, context, *, action, target, **kwargs)`
(response.py lines 30-45): overlays the reserved keys
`turbo_stream_action` (the action's `.value`), `turbo_stream_target` and
`is_turbo_stream` onto the caller context (dict-literal order: caller
first, reserved keys after, so the reserved keys win), stores the action
and target for deferred wrapping, and sets the stream content type via
`response.TurboStreamResponseMixin`.  No wrapping happens here. -/
def TurboStreamTemplateResponse.init (request : Request) (template : List String)
    (context : PyDict) (action : Renderers.Action) (target : String) (engine : TemplateEngine)
    (kwargs : PyDict) : TurboStreamTemplateResponse :=
  { request := request
    template := template
    context := context ++
      [("turbo_stream_action", .str action.value),
       ("turbo_stream_target", .str target),
       ("is_turbo_stream", .bool true)]
    content_type := some turboStreamContentType
    engine := engine
    kwargs := kwargs
    tsr_action := action
    tsr_target := target }

/-- Embeds the `rendered_content` property (response.py lines 47-51):
first obtain the base `TemplateResponse.rendered_content` (the external
collaborator's render of the stored template/context/request), then pass
it through `render_turbo_stream` with the stored action and target. -/
def TurboStreamTemplateResponse.rendered_content (r : TurboStreamTemplateResponse) : String :=
  render_turbo_stream r.tsr_action r.tsr_target
    (TemplateResponse.rendered_content r.engine r.template r.context r.request)

/-- The Python value of an optional string attribute: the string itself,
or `None` when unset. -/
def pyOfOptStr : Option String → PyVal
  | some s => .str s
  | none => .pynone

/-- Python f-string conversion of an optional string: `None` formats as
the four characters `None`. -/
def pyFormatOptStr : Option String → String
  | some s => s
  | none => "None"

/-- Embeds `response.TurboFrameTemplateResponse` (response.py lines 61-77):
a template-deferred frame response.  `tftr_dom_id` embeds the
`self._dom_id` attribute stored for later wrapping; it is an `Option`
because the frame-template mixin forwards a possibly-`None` dom-id
unchecked (mixins.py line 185). -/
structure TurboFrameTemplateResponse where
  request : Request
  template : List String
  context : PyDict
  content_type : Option String
  engine : TemplateEngine
  kwargs : PyDict
  tftr_dom_id : Option String

/-- Embeds `TurboFrameTemplateResponse.__init__(request, template, context, *, dom_id, **kwargs)`
(response.py lines 64-73): overlays the reserved keys `turbo_frame_dom_id`
and `is_turbo_frame` onto the caller context (reserved keys win) and stores
the dom-id for deferred wrapping.  No content type is set by this layer and
no wrapping happens here. -/
def TurboFrameTemplateResponse.init (request : Request) (template : List String)
    (context : PyDict) (dom_id : Option String) (engine : TemplateEngine)
    (kwargs : PyDict) : TurboFrameTemplateResponse :=
  { request := request
    template := template
    context := context ++
      [("turbo_frame_dom_id", pyOfOptStr dom_id),
       ("is_turbo_frame", .bool true)]
    content_type := none
    engine := engine
    kwargs := kwargs
    tftr_dom_id := dom_id }

/-- Embeds the `rendered_content` property (response.py lines 75-77):
first obtain the base `TemplateResponse.rendered_content`, then pass it
through `render_turbo_frame` with the stored dom-id. -/
def TurboFrameTemplateResponse.rendered_content (r : TurboFrameTemplateResponse) : String :=
  render_turbo_frame (pyFormatOptStr r.tftr_dom_id)
    (TemplateResponse.rendered_content r.engine r.template r.context r.request)

/-- The two Python exception kinds raised by the mixins:
`ValueError` (builtin) and `django.core.exceptions.ImproperlyConfigured`. -/
inductive PyError where
  | valueError (msg : String)
  | improperlyConfigured (msg : String)
  deriving DecidableEq, Repr

/-- A host object for `mixins.TurboStreamResponseMixin`: the class-level
attributes `turbo_stream_action` / `turbo_stream_target` (default `None`
in the source) as resolved on the handler, plus the handler's
`get_response_content` result (the mixin's default is the empty string;
subclasses may override it). -/
structure StreamHandler where
  turbo_stream_action : Option Renderers.Action
  turbo_stream_target : Option String
  response_content : String

/-- Embeds `mixins.TurboStreamResponseMixin.get_turbo_stream_action`
(mixins.py lines 48-54): returns the `turbo_stream_action` attribute. -/
def Mixins.TurboStreamResponseMixin.get_turbo_stream_action (h : StreamHandler) :
    Option Renderers.Action :=
  h.turbo_stream_action

/-- Embeds `mixins.TurboStreamResponseMixin.get_turbo_stream_target`
(mixins.py lines 56-62): returns the `turbo_stream_target` attribute. -/
def Mixins.TurboStreamResponseMixin.get_turbo_stream_target (h : StreamHandler) :
    Option String :=
  h.turbo_stream_target

/-- Embeds `mixins.TurboStreamResponseMixin.get_response_content`
(mixins.py lines 64-70) as resolved on the handler (the mixin's own body
returns the empty string; subclasses override it). -/
def Mixins.TurboStreamResponseMixin.get_response_content (h : StreamHandler) : String :=
  h.response_content

/-- Embeds `mixins.TurboStreamResponseMixin.render_turbo_stream_response`
(mixins.py lines 72-92): resolves action and target through the
accessors, raises `ValueError` if the action is unset, then `ValueError`
if the target is unset, and only then constructs a `TurboStreamResponse`,
forwarding the extra response kwargs. -/
def Mixins.TurboStreamResponseMixin.render_turbo_stream_response (h : StreamHandler)
    (response_kwargs : PyDict) : Except PyError TurboStreamResponse :=
  let action := Mixins.TurboStreamResponseMixin.get_turbo_stream_action h
  let target := Mixins.TurboStreamResponseMixin.get_turbo_stream_target h
  match action with
  | none => .error (.valueError "action must be specified")
  | some a =>
    match target with
    | none => .error (.valueError "target must be specified")
    | some t =>
      .ok (TurboStreamResponse.init (Mixins.TurboStreamResponseMixin.get_response_content h)
        a t response_kwargs)

/-- A host object for `mixins.TurboStreamTemplateResponseMixin`: the
stream attributes plus the request, the `get_template_names` result and
the `template_engine` attribute required by its protocol bases. -/
structure StreamTemplateHandler extends StreamHandler where
  request : Request
  template_names : List String
  template_engine : TemplateEngine

/-- Embeds `mixins.TurboStreamTemplateResponseMixin.get_turbo_stream_template_names`
(mixins.py lines 103-108): defaults to the handler's `get_template_names`. -/
def Mixins.TurboStreamTemplateResponseMixin.get_turbo_stream_template_names
    (h : StreamTemplateHandler) : List String :=
  h.template_names

/-- Embeds `mixins.TurboStreamTemplateResponseMixin.render_turbo_stream_template_response`
(mixins.py lines 110-134): raises `ImproperlyConfigured "target is None"` if
the target accessor resolves to `None`, then `ImproperlyConfigured
"action is None"` if the action accessor resolves to `None`, and only then
constructs a `TurboStreamTemplateResponse`.  The caller's extra
`response_kwargs` are accepted but NOT forwarded to the constructor. -/
def Mixins.TurboStreamTemplateResponseMixin.render_turbo_stream_template_response
    (h : StreamTemplateHandler) (context : PyDict) (response_kwargs : PyDict) :
    Except PyError TurboStreamTemplateResponse :=
  match Mixins.TurboStreamResponseMixin.get_turbo_stream_target h.toStreamHandler with
  | none => .error (.improperlyConfigured "target is None")
  | some target =>
    match Mixins.TurboStreamResponseMixin.get_turbo_stream_action h.toStreamHandler with
    | none => .error (.improperlyConfigured "action is None")
    | some action =>
      .ok (TurboStreamTemplateResponse.init h.request
        (Mixins.TurboStreamTemplateResponseMixin.get_turbo_stream_template_names h)
        context action target h.template_engine [])

/-- A framework HTTP response as seen by the form mixin: a status code,
a body and headers. -/
structure HttpResponse where
  status_code : Nat
  body : String
  headers : List (String × String)
  deriving DecidableEq, Repr

/-- An opaque form object passed to `form_invalid`. -/
structure Form where
  id : Nat
  deriving DecidableEq, Repr

/-- `http.HTTPStatus.UNPROCESSABLE_ENTITY`. -/
def UNPROCESSABLE_ENTITY : Nat := 422

/-- Embeds `mixins.TurboFormMixin.form_invalid` (mixins.py lines 141-144):
first let the wrapped `super().form_invalid(form)` fully produce its
response, then overwrite that response's status code with 422, leaving
every other attribute unchanged.  The wrapped operation is the abstract
collaborator `super_form_invalid`. -/
def Mixins.TurboFormMixin.form_invalid (super_form_invalid : Form → HttpResponse)
    (form : Form) : HttpResponse :=
  let response := super_form_invalid form
  { response with status_code := UNPROCESSABLE_ENTITY }

/-- A host object for `mixins.TurboFrameResponseMixin`: the class-level
`turbo_frame_dom_id` attribute (default `None` in the source) and the
handler's `get_response_content` result. -/
structure FrameHandler where
  turbo_frame_dom_id : Option String
  response_content : String

/-- Embeds `mixins.TurboFrameResponseMixin.get_turbo_frame_dom_id`
(mixins.py lines 150-151): returns the `turbo_frame_dom_id` attribute. -/
def Mixins.TurboFrameResponseMixin.get_turbo_frame_dom_id (h : FrameHandler) :
    Option String :=
  h.turbo_frame_dom_id

/-- Embeds `mixins.TurboFrameResponseMixin.get_response_content`
(mixins.py lines 153-154) as resolved on the handler. -/
def Mixins.TurboFrameResponseMixin.get_response_content (h : FrameHandler) : String :=
  h.response_content

/-- Embeds `mixins.TurboFrameResponseMixin.render_turbo_frame_response`
(mixins.py lines 156-163): raises `ValueError` if the dom-id accessor
resolves to `None`, and only then constructs a `TurboFrameResponse`,
forwarding the extra response kwargs. -/
def Mixins.TurboFrameResponseMixin.render_turbo_frame_response (h : FrameHandler)
    (response_kwargs : PyDict) : Except PyError TurboFrameResponse :=
  match Mixins.TurboFrameResponseMixin.get_turbo_frame_dom_id h with
  | none => .error (.valueError "dom_id must be specified")
  | some dom_id =>
    .ok (TurboFrameResponse.init (Mixins.TurboFrameResponseMixin.get_response_content h)
      dom_id response_kwargs)

/-- A host object for `mixins.TurboFrameTemplateResponseMixin`: the frame
attributes plus the request, the `get_template_names` result and the
`template_engine` attribute required by its protocol bases. -/
structure FrameTemplateHandler extends FrameHandler where
  request : Request
  template_names : List String
  template_engine : TemplateEngine

/-- Embeds `mixins.TurboFrameTemplateResponseMixin.render_turbo_frame_response`
(mixins.py lines 174-189): constructs a `TurboFrameTemplateResponse`
directly from the accessors, forwarding the extra response kwargs.
Unlike the other three mixins, the source performs NO check that the
dom-id is set: a `None` dom-id is passed straight to the constructor and
no exception is raised (hence the total, non-`Except` return type). -/
def Mixins.TurboFrameTemplateResponseMixin.render_turbo_frame_response
    (h : FrameTemplateHandler) (context : PyDict) (response_kwargs : PyDict) :
    TurboFrameTemplateResponse :=
  TurboFrameTemplateResponse.init h.request h.template_names context
    (Mixins.TurboFrameResponseMixin.get_turbo_frame_dom_id h.toFrameHandler)
    h.template_engine response_kwargs

/-- Appending to a dict cannot hide a key present in the appended tail:
lookup finds the tail's (later) value. -/
theorem dictGet_append_some (d1 : PyDict) {d2 : PyDict} {k : String} {v : PyVal}
    (h : dictGet d2 k = some v) : dictGet (d1 ++ d2) k = some v := by
  induction d1 with
  | nil => simpa using h
  | cons e tl ih => simp [dictGet, ih]

/-- If a key is absent from the appended tail, lookup falls back to the
front dict. -/
theorem dictGet_append_none (d1 : PyDict) {d2 : PyDict} {k : String}
    (h : dictGet d2 k = none) : dictGet (d1 ++ d2) k = dictGet d1 k := by
  induction d1 with
  | nil => simpa using h
  | cons e tl ih => simp [dictGet, ih]

/-- Claim C1: the spec states that a frame-template handler whose dom-id
accessor resolves to `None` gets a configuration error from
`render_turbo_frame_response` before any response is constructed,
symmetrically to the stream-template variant.  The code performs no such
check: at this concrete handler with `turbo_frame_dom_id = none`, the
mixin returns a fully constructed `TurboFrameTemplateResponse` whose
stored dom-id is `none` and whose overlaid context carries `None` under
the reserved key — no error of any kind is raised (the embedded function
is total). -/
theorem C1_frame_template_mixin_skips_dom_id_check :
    (Mixins.TurboFrameTemplateResponseMixin.render_turbo_frame_response
      { turbo_frame_dom_id := none, response_content := "",
        request := { path := "/p" }, template_names := ["t.html"],
        template_engine := fun _ _ _ => "<span>ok</span>" }
      [("x", .int 1)] []).tftr_dom_id = none
    ∧ dictGet (Mixins.TurboFrameTemplateResponseMixin.render_turbo_frame_response
      { turbo_frame_dom_id := none, response_content := "",
        request := { path := "/p" }, template_names := ["t.html"],
        template_engine := fun _ _ _ => "<span>ok</span>" }
      [("x", .int 1)] []).context "turbo_frame_dom_id" = some .pynone :=
  ⟨rfl, rfl⟩

/-- Claim C2: for every stream-template handler whose action or target
accessor resolves to `None`, `render_turbo_stream_template_response`
raises `ImproperlyConfigured` — a distinct error kind from `ValueError` —
and (by the `Except`-typed embedding) does so before any response value
is produced. -/
theorem C2_stream_template_unset_raises_improperly_configured
    (h : StreamTemplateHandler) (context response_kwargs : PyDict)
    (hunset : h.turbo_stream_action = none ∨ h.turbo_stream_target = none) :
    (∃ msg, Mixins.TurboStreamTemplateResponseMixin.render_turbo_stream_template_response
        h context response_kwargs = .error (.improperlyConfigured msg))
    ∧ ∀ msg, Mixins.TurboStreamTemplateResponseMixin.render_turbo_stream_template_response
        h context response_kwargs ≠ .error (.valueError msg) := by
  rcases h with ⟨⟨a?, t?, rc⟩, req, tns, te⟩
  cases t? with
  | none =>
    refine ⟨⟨"target is None", rfl⟩, ?_⟩
    intro msg hcontra
    simp [Mixins.TurboStreamTemplateResponseMixin.render_turbo_stream_template_response,
      Mixins.TurboStreamResponseMixin.get_turbo_stream_target] at hcontra
  | some t =>
    cases a? with
    | none =>
      refine ⟨⟨"action is None", rfl⟩, ?_⟩
      intro msg hcontra
      simp [Mixins.TurboStreamTemplateResponseMixin.render_turbo_stream_template_response,
        Mixins.TurboStreamResponseMixin.get_turbo_stream_target,
        Mixins.TurboStreamResponseMixin.get_turbo_stream_action] at hcontra
    | some a => rcases hunset with h1 | h1 <;> simp at h1

/-- Witness for C2: a concrete handler with an unset action satisfies the
hypothesis and the conclusion. -/
theorem C2_stream_template_unset_raises_improperly_configured_witness :
    ((⟨⟨none, some "msgs", ""⟩, ⟨"/p"⟩, ["t.html"], fun _ _ _ => "B"⟩ :
        StreamTemplateHandler).turbo_stream_action = none
      ∨ (⟨⟨none, some "msgs", ""⟩, ⟨"/p"⟩, ["t.html"], fun _ _ _ => "B"⟩ :
        StreamTemplateHandler).turbo_stream_target = none)
    ∧ ((∃ msg, Mixins.TurboStreamTemplateResponseMixin.render_turbo_stream_template_response
          ⟨⟨none, some "msgs", ""⟩, ⟨"/p"⟩, ["t.html"], fun _ _ _ => "B"⟩ [] []
          = .error (.improperlyConfigured msg))
      ∧ ∀ msg, Mixins.TurboStreamTemplateResponseMixin.render_turbo_stream_template_response
          ⟨⟨none, some "msgs", ""⟩, ⟨"/p"⟩, ["t.html"], fun _ _ _ => "B"⟩ [] []
          ≠ .error (.valueError msg)) :=
  ⟨Or.inl rfl,
   C2_stream_template_unset_raises_improperly_configured
     ⟨⟨none, some "msgs", ""⟩, ⟨"/p"⟩, ["t.html"], fun _ _ _ => "B"⟩ [] [] (Or.inl rfl)⟩

/-- Claim C3: the plain stream mixin raises `ValueError` when the action
or target accessor resolves to `None`, and the plain frame mixin raises
`ValueError` when the dom-id accessor resolves to `None`; in each case the
error is returned instead of a constructed response (no silent default). -/
theorem C3_plain_mixins_unset_raise_value_error :
    (∀ (h : StreamHandler) (response_kwargs : PyDict),
      h.turbo_stream_action = none ∨ h.turbo_stream_target = none →
      ∃ msg, Mixins.TurboStreamResponseMixin.render_turbo_stream_response h response_kwargs
        = .error (.valueError msg))
    ∧ (∀ (h : FrameHandler) (response_kwargs : PyDict),
      h.turbo_frame_dom_id = none →
      ∃ msg, Mixins.TurboFrameResponseMixin.render_turbo_frame_response h response_kwargs
        = .error (.valueError msg)) := by
  constructor
  · rintro ⟨a?, t?, rc⟩ k hunset
    cases a? with
    | none => exact ⟨"action must be specified", rfl⟩
    | some a =>
      cases t? with
      | none => exact ⟨"target must be specified", rfl⟩
      | some t => rcases hunset with h1 | h1 <;> simp at h1
  · rintro ⟨d?, rc⟩ k hnone
    cases d? with
    | none => exact ⟨"dom_id must be specified", rfl⟩
    | some d => simp at hnone

/-- Witness for C3: concrete handlers with unset action and unset dom-id
satisfy the hypotheses and the conclusions. -/
theorem C3_plain_mixins_unset_raise_value_error_witness :
    ((⟨none, none, ""⟩ : StreamHandler).turbo_stream_action = none
      ∨ (⟨none, none, ""⟩ : StreamHandler).turbo_stream_target = none)
    ∧ (∃ msg, Mixins.TurboStreamResponseMixin.render_turbo_stream_response ⟨none, none, ""⟩ []
        = .error (.valueError msg))
    ∧ ((⟨none, ""⟩ : FrameHandler).turbo_frame_dom_id = none)
    ∧ (∃ msg, Mixins.TurboFrameResponseMixin.render_turbo_frame_response ⟨none, ""⟩ []
        = .error (.valueError msg)) :=
  ⟨Or.inl rfl,
   C3_plain_mixins_unset_raise_value_error.1 ⟨none, none, ""⟩ [] (Or.inl rfl),
   rfl,
   C3_plain_mixins_unset_raise_value_error.2 ⟨none, ""⟩ [] rfl⟩

/-- Claim C4: the form-invalidity override first lets the wrapped
operation return its response, then rewrites its status code to exactly
422, leaving body and headers unchanged, whatever the original status
code was. -/
theorem C4_form_invalid_always_422 (super_form_invalid : Form → HttpResponse) (form : Form) :
    (Mixins.TurboFormMixin.form_invalid super_form_invalid form).status_code = 422
    ∧ (Mixins.TurboFormMixin.form_invalid super_form_invalid form).body
        = (super_form_invalid form).body
    ∧ (Mixins.TurboFormMixin.form_invalid super_form_invalid form).headers
        = (super_form_invalid form).headers :=
  ⟨rfl, rfl, rfl⟩

/-- Claim C5: for every caller context, the overlaid context stored by a
template-variant response (and later handed to the template collaborator)
binds the reserved keys — `turbo_stream_action` (the action's string
value), `turbo_stream_target`, `is_turbo_stream = True` for stream
templates; `turbo_frame_dom_id`, `is_turbo_frame = True` for frame
templates — to exactly the action/target/dom-id stored for markup
wrapping, and these reserved bindings win over any caller-supplied key of
the same name. -/
theorem C5_reserved_context_keys_present_and_win :
    (∀ (request : Request) (template : List String) (context : PyDict)
        (action : Renderers.Action) (target : String) (engine : TemplateEngine)
        (kwargs : PyDict),
      dictGet (TurboStreamTemplateResponse.init request template context action target
          engine kwargs).context "turbo_stream_action" = some (.str action.value)
      ∧ dictGet (TurboStreamTemplateResponse.init request template context action target
          engine kwargs).context "turbo_stream_target" = some (.str target)
      ∧ dictGet (TurboStreamTemplateResponse.init request template context action target
          engine kwargs).context "is_turbo_stream" = some (.bool true)
      ∧ (TurboStreamTemplateResponse.init request template context action target
          engine kwargs).tsr_action = action
      ∧ (TurboStreamTemplateResponse.init request template context action target
          engine kwargs).tsr_target = target)
    ∧ (∀ (request : Request) (template : List String) (context : PyDict)
        (dom_id : String) (engine : TemplateEngine) (kwargs : PyDict),
      dictGet (TurboFrameTemplateResponse.init request template context (some dom_id)
          engine kwargs).context "turbo_frame_dom_id" = some (.str dom_id)
      ∧ dictGet (TurboFrameTemplateResponse.init request template context (some dom_id)
          engine kwargs).context "is_turbo_frame" = some (.bool true)
      ∧ (TurboFrameTemplateResponse.init request template context (some dom_id)
          engine kwargs).tftr_dom_id = some dom_id) := by
  constructor
  · intro request template context action target engine kwargs
    exact ⟨dictGet_append_some context rfl, dictGet_append_some context rfl,
      dictGet_append_some context rfl, rfl, rfl⟩
  · intro request template context dom_id engine kwargs
    exact ⟨dictGet_append_some context rfl, dictGet_append_some context rfl, rfl⟩

/-- Claim C6: for template-deferred responses, the body materialization
first obtains the underlying template collaborator's rendered content of
the stored template/context/request, then passes it through the stream
wrapper with the action and target fixed at construction (stream case)
or through the frame wrapper with the dom-id fixed at construction
(frame case); the constructed object stores only the inputs, no wrapped
markup. -/
theorem C6_deferred_wrapping_after_template_render :
    (∀ (request : Request) (template : List String) (context : PyDict)
        (action : Renderers.Action) (target : String) (engine : TemplateEngine)
        (kwargs : PyDict),
      (TurboStreamTemplateResponse.init request template context action target
          engine kwargs).tsr_action = action
      ∧ (TurboStreamTemplateResponse.init request template context action target
          engine kwargs).tsr_target = target
      ∧ (TurboStreamTemplateResponse.init request template context action target
          engine kwargs).rendered_content
        = render_turbo_stream action target
            (TemplateResponse.rendered_content engine template
              (TurboStreamTemplateResponse.init request template context action target
                engine kwargs).context request))
    ∧ (∀ (request : Request) (template : List String) (context : PyDict)
        (dom_id : String) (engine : TemplateEngine) (kwargs : PyDict),
      (TurboFrameTemplateResponse.init request template context (some dom_id)
          engine kwargs).tftr_dom_id = some dom_id
      ∧ (TurboFrameTemplateResponse.init request template context (some dom_id)
          engine kwargs).rendered_content
        = render_turbo_frame dom_id
            (TemplateResponse.rendered_content engine template
              (TurboFrameTemplateResponse.init request template context (some dom_id)
                engine kwargs).context request)) :=
  ⟨fun _ _ _ _ _ _ _ => ⟨rfl, rfl, rfl⟩, fun _ _ _ _ _ _ => ⟨rfl, rfl⟩⟩

/-- Claim C7: every stream response variant (eager, streaming,
template-deferred) is constructed with content type exactly
`text/html; turbo-stream; charset=utf-8`, while neither frame variant
sets a content type (framework default, modelled as `none`). -/
theorem C7_stream_content_type_exact_frame_default :
    (∀ (content : String) (action : Renderers.Action) (target : String) (kwargs : PyDict),
      (TurboStreamResponse.init content action target kwargs).content_type
        = some "text/html; turbo-stream; charset=utf-8")
    ∧ (∀ (chunks : List String),
      (TurboStreamStreamingResponse.init chunks).content_type
        = some "text/html; turbo-stream; charset=utf-8")
    ∧ (∀ (request : Request) (template : List String) (context : PyDict)
        (action : Renderers.Action) (target : String) (engine : TemplateEngine)
        (kwargs : PyDict),
      (TurboStreamTemplateResponse.init request template context action target
          engine kwargs).content_type = some "text/html; turbo-stream; charset=utf-8")
    ∧ (∀ (content dom_id : String) (kwargs : PyDict),
      (TurboFrameResponse.init content dom_id kwargs).content_type = none)
    ∧ (∀ (request : Request) (template : List String) (context : PyDict)
        (dom_id : Option String) (engine : TemplateEngine) (kwargs : PyDict),
      (TurboFrameTemplateResponse.init request template context dom_id
          engine kwargs).content_type = none) :=
  ⟨fun _ _ _ _ => rfl, fun _ => rfl, fun _ _ _ _ _ _ _ => rfl,
   fun _ _ _ => rfl, fun _ _ _ _ _ _ => rfl⟩

/-- Claim C8: for eager stream and frame responses, the stored body is
the wrapper markup applied once, at construction, to the construction
arguments (with content defaulting to the empty string in the source),
and the body accessor returns those stored bytes unchanged — the wrapper
is never re-applied on access, so repeated reads yield identical bytes. -/
theorem C8_eager_wrap_once_body_stable :
    (∀ (content : String) (action : Renderers.Action) (target : String) (kwargs : PyDict),
      (TurboStreamResponse.init content action target kwargs).body
          = render_turbo_stream action target content
      ∧ (TurboStreamResponse.init content action target kwargs).content
          = (TurboStreamResponse.init content action target kwargs).body)
    ∧ (∀ (action : Renderers.Action) (target : String) (kwargs : PyDict),
      (TurboStreamResponse.init "" action target kwargs).body
          = render_turbo_stream action target "")
    ∧ (∀ (content dom_id : String) (kwargs : PyDict),
      (TurboFrameResponse.init content dom_id kwargs).body = render_turbo_frame dom_id content
      ∧ (TurboFrameResponse.init content dom_id kwargs).content
          = (TurboFrameResponse.init content dom_id kwargs).body) :=
  ⟨fun _ _ _ _ => ⟨rfl, rfl⟩, fun _ _ _ => rfl, fun _ _ _ => ⟨rfl, rfl⟩⟩

/-- Claim C9: the stream-template mixin silently discards its extra
keyword response options — the constructed response is identical for any
two kwargs dictionaries — while the frame-template mixin forwards its
extra options to the constructed response unchanged. -/
theorem C9_stream_template_discards_kwargs_frame_forwards :
    (∀ (h : StreamTemplateHandler) (context k1 k2 : PyDict),
      Mixins.TurboStreamTemplateResponseMixin.render_turbo_stream_template_response h context k1
        = Mixins.TurboStreamTemplateResponseMixin.render_turbo_stream_template_response h context k2)
    ∧ (∀ (h : FrameTemplateHandler) (context k : PyDict),
      (Mixins.TurboFrameTemplateResponseMixin.render_turbo_frame_response h context k).kwargs = k) :=
  ⟨fun _ _ _ _ => rfl, fun _ _ _ => rfl⟩

/-- Claim C10: every caller-supplied context key that is not one of the
reserved keys reaches the stored (renderer-bound) context with its
caller-supplied value unchanged, for both template-variant responses. -/
theorem C10_nonreserved_caller_keys_pass_through
    : (∀ (request : Request) (template : List String) (context : PyDict)
        (action : Renderers.Action) (target : String) (engine : TemplateEngine)
        (kwargs : PyDict) (key : String),
      key ≠ "turbo_stream_action" → key ≠ "turbo_stream_target" → key ≠ "is_turbo_stream" →
      dictGet (TurboStreamTemplateResponse.init request template context action target
          engine kwargs).context key = dictGet context key)
    ∧ (∀ (request : Request) (template : List String) (context : PyDict)
        (dom_id : Option String) (engine : TemplateEngine) (kwargs : PyDict) (key : String),
      key ≠ "turbo_frame_dom_id" → key ≠ "is_turbo_frame" →
      dictGet (TurboFrameTemplateResponse.init request template context dom_id
          engine kwargs).context key = dictGet context key) := by
  constructor
  · intro request template context action target engine kwargs key h1 h2 h3
    have hov : dictGet
        [("turbo_stream_action", PyVal.str action.value),
         ("turbo_stream_target", PyVal.str target),
         ("is_turbo_stream", PyVal.bool true)] key = none := by
      simp [dictGet, Ne.symm h1, Ne.symm h2, Ne.symm h3]
    exact dictGet_append_none context hov
  · intro request template context dom_id engine kwargs key h1 h2
    have hov : dictGet
        [("turbo_frame_dom_id", pyOfOptStr dom_id),
         ("is_turbo_frame", PyVal.bool true)] key = none := by
      simp [dictGet, Ne.symm h1, Ne.symm h2]
    exact dictGet_append_none context hov

/-- Witness for C10: the concrete non-reserved key `x` keeps its
caller-supplied value in both template-variant contexts. -/
theorem C10_nonreserved_caller_keys_pass_through_witness :
    (("x" : String) ≠ "turbo_stream_action") ∧ (("x" : String) ≠ "turbo_stream_target")
    ∧ (("x" : String) ≠ "is_turbo_stream")
    ∧ dictGet (TurboStreamTemplateResponse.init ⟨"/p"⟩ ["t.html"] [("x", PyVal.int 1)]
        .replace "msgs" (fun _ _ _ => "B") []).context "x" = dictGet [("x", PyVal.int 1)] "x"
    ∧ (("x" : String) ≠ "turbo_frame_dom_id") ∧ (("x" : String) ≠ "is_turbo_frame")
    ∧ dictGet (TurboFrameTemplateResponse.init ⟨"/p"⟩ ["t.html"] [("x", PyVal.int 1)]
        (some "card-7") (fun _ _ _ => "B") []).context "x" = dictGet [("x", PyVal.int 1)] "x" :=
  ⟨by decide, by decide, by decide,
   C10_nonreserved_caller_keys_pass_through.1 ⟨"/p"⟩ ["t.html"] [("x", PyVal.int 1)]
     .replace "msgs" (fun _ _ _ => "B") [] "x" (by decide) (by decide) (by decide),
   by decide, by decide,
   C10_nonreserved_caller_keys_pass_through.2 ⟨"/p"⟩ ["t.html"] [("x", PyVal.int 1)]
     (some "card-7") (fun _ _ _ => "B") [] "x" (by decide) (by decide)⟩
